import Mathlib

/-!
Verification development for the abuse-mitigation and telemetry layer of the
clickedu docs overlay: the sliding-window rate limiter, the violation/lockout
state machine, the event batching/flush pipeline (all from security-logger.js)
and the server-side event classifier (checkSecurityPatterns in the Cloudflare
worker).  Timestamps and durations are modelled as `Int` (JS numbers, which are
integral in every code path here); persisted localStorage state is modelled as
explicit values threaded through the operations.
-/

namespace ClickeduSecurity

/-- JS `Math.ceil(x / 1000)` on an integral millisecond quantity `x`:
for integral `x`, `ceil(x/1000)` equals the floor division `(x + 999) / 1000`
(the `Int` division of Lean rounds toward negative infinity for this divisor). -/
def jsCeil1000 (x : Int) : Int := (x + 999) / 1000

/-- JS `Math.min(...xs)` for a nonempty spread.  The `[]` case returns a junk
value (JS would give `Infinity`); every call site in the source reaches it only
with a nonempty list. -/
def listMin : List Int → Int
  | [] => 0
  | x :: xs => xs.foldl min x

theorem foldl_min_mem (x : Int) (xs : List Int) : xs.foldl min x ∈ x :: xs := by
  induction xs generalizing x with
  | nil => simp
  | cons y ys ih =>
    simp only [List.foldl]
    rcases List.mem_cons.mp (ih (min x y)) with h | h
    · rcases min_choice x y with hh | hh <;> rw [h, hh] <;> simp
    · simp [List.mem_cons, h]

theorem listMin_mem (l : List Int) (h : l ≠ []) : listMin l ∈ l := by
  cases l with
  | nil => exact absurd rfl h
  | cons x xs => exact foldl_min_mem x xs

theorem listMin_pos_of_forall (l : List Int) (h : l ≠ []) (lo : Int)
    (hall : ∀ x ∈ l, lo ≤ x) : lo ≤ listMin l :=
  hall _ (listMin_mem l h)

theorem jsCeil1000_pos (x : Int) (h : 1 ≤ x) : 0 < jsCeil1000 x := by
  unfold jsCeil1000; omega

theorem jsCeil1000_mul_ge (x : Int) : x ≤ 1000 * jsCeil1000 x := by
  unfold jsCeil1000; omega

-- ==========================================================================
-- RATE_LIMIT_CONFIG (rate-limiter.js)
-- ==========================================================================

structure RateLimitConfig where
  maxOverlayOpens : Nat
  overlayWindow : Int
  maxDocumentClicks : Nat
  documentWindow : Int
  maxFailedAttempts : Nat
  lockoutDuration : Int
deriving DecidableEq, Repr

def RATE_LIMIT_CONFIG : RateLimitConfig where
  maxOverlayOpens := 20
  overlayWindow := 60000
  maxDocumentClicks := 50
  documentWindow := 60000
  maxFailedAttempts := 5
  lockoutDuration := 300000

-- ==========================================================================
-- class RateLimiter
-- ==========================================================================

/-- A `RateLimiter` instance: `constructor(action, maxAttempts, windowMs)`. -/
structure RateLimiter where
  action : String
  maxAttempts : Nat
  windowMs : Int
deriving DecidableEq, Repr

/-- The value `isAllowed()` returns: either
`\x7b allowed: true, remainingAttempts \x7d` or
`\x7b allowed: false, timeToWait \x7d`. -/
inductive RLOutcome where
  | allowed (remainingAttempts : Nat)
  | denied (timeToWait : Int)
deriving DecidableEq, Repr

def RLOutcome.isAllowedB : RLOutcome → Bool
  | .allowed _ => true
  | .denied _ => false

/-- The filter inside `isAllowed`:
`attempts.filter(timestamp => now - timestamp < this.windowMs)`. -/
def pruneAttempts (rl : RateLimiter) (now : Int) (attempts : List Int) : List Int :=
  attempts.filter (fun timestamp => decide (now - timestamp < rl.windowMs))

/-- `RateLimiter.isAllowed()`.  `attempts` is the stored timestamp list read by
`getAttempts()`; the second component of the result is the stored list after
the call.  Note the denied branch returns before `saveAttempts` runs, so on
denial the stored list is unchanged; only the allowed branch persists the
pruned list with `now` appended. -/
def isAllowed (rl : RateLimiter) (now : Int) (attempts : List Int) :
    RLOutcome × List Int :=
  let validAttempts := pruneAttempts rl now attempts
  if rl.maxAttempts ≤ validAttempts.length then
    let oldestAttempt := listMin validAttempts
    let timeToWait := rl.windowMs - (now - oldestAttempt)
    (RLOutcome.denied (jsCeil1000 timeToWait), attempts)
  else
    let newAttempts := validAttempts ++ [now]
    (RLOutcome.allowed (rl.maxAttempts - newAttempts.length), newAttempts)

/-- A sequence of `isAllowed()` calls at the given instants, threading the
stored attempt list; returns the list of outcomes and the final stored list. -/
def runCalls (rl : RateLimiter) (times : List Int) (attempts : List Int) :
    List RLOutcome × List Int :=
  match times with
  | [] => ([], attempts)
  | t :: ts =>
    let step := isAllowed rl t attempts
    let rest := runCalls rl ts step.2
    (step.1 :: rest.1, rest.2)

-- ==========================================================================
-- class LockoutManager
-- ==========================================================================

/-- One entry of the `_violations` localStorage list:
`\x7b timestamp: Date.now(), reason \x7d`. -/
structure Violation where
  timestamp : Int
  reason : String
deriving DecidableEq, Repr

/-- The stored lockout record written by `lockout(reason)`:
`\x7b until: Date.now() + lockoutDuration, reason, timestamp: Date.now() \x7d`. -/
structure LockoutRecord where
  /-- the JS field `until` (a Lean keyword, hence the name) -/
  untilMs : Int
  reason : String
  timestamp : Int
deriving DecidableEq, Repr

/-- The two localStorage keys the LockoutManager owns: the lockout record
(`none` when absent or unparseable, as the catch inside `getLockout` returns null) and
the violation list (likewise `[]` when absent or unparseable). -/
structure LockoutStore where
  lockout : Option LockoutRecord
  violations : List Violation
deriving DecidableEq, Repr

/-- The value `isLockedOut()` returns.  JS returns three distinct shapes:
the bare boolean `false` when no lockout record is stored, the object
`\x7b locked: true, timeRemaining, reason \x7d` while a lockout is in force,
and the object `\x7b locked: false \x7d` right after clearing an expired
lockout. -/
inductive LockoutCheck where
  | boolFalse
  | lockedRecord (timeRemaining : Int) (reason : String)
  | unlockedRecord
deriving DecidableEq, Repr

/-- JS truthiness of the value `isLockedOut()` returns: the bare boolean
`false` is falsy, while any object — including `\x7b locked: false \x7d` —
is truthy. -/
def jsTruthy : LockoutCheck → Bool
  | .boolFalse => false
  | .lockedRecord _ _ => true
  | .unlockedRecord => true

/-- JS truthiness of `result.locked`: reading `.locked` on the bare boolean
`false` yields `undefined` (falsy); on the locked record it is `true`; on
`\x7b locked: false \x7d` it is `false`. -/
def jsLockedField : LockoutCheck → Bool
  | .boolFalse => false
  | .lockedRecord _ _ => true
  | .unlockedRecord => false

/-- `LockoutManager.clearLockout()`: removes both the lockout record and the
`_violations` key. -/
def clearLockout (_s : LockoutStore) : LockoutStore :=
  { lockout := none, violations := [] }

/-- `LockoutManager.isLockedOut()`.  Returns the JS result together with the
stored state after the call (the expired branch calls `clearLockout()`). -/
def isLockedOut (now : Int) (s : LockoutStore) : LockoutCheck × LockoutStore :=
  match s.lockout with
  | none => (.boolFalse, s)
  | some lk =>
    if now < lk.untilMs then
      (.lockedRecord (jsCeil1000 (lk.untilMs - now)) lk.reason, s)
    else
      (.unlockedRecord, clearLockout s)

/-- `LockoutManager.lockout(reason)`: installs the lockout record, overwriting
any stored one; the violation list is untouched. -/
def lockout (now : Int) (reason : String) (s : LockoutStore) : LockoutStore :=
  { s with lockout := some { untilMs := now + RATE_LIMIT_CONFIG.lockoutDuration
                             reason := reason
                             timestamp := now } }

/-- The `recentViolations` list computed inside `recordViolation(reason)`:
the stored list with the new violation appended, keeping only entries younger
than 5 minutes (the hardcoded `300000`). -/
def recentViolations (now : Int) (reason : String) (s : LockoutStore) :
    List Violation :=
  (s.violations ++ [({ timestamp := now, reason := reason } : Violation)]).filter
    (fun v => decide (now - v.timestamp < 300000))

/-- `LockoutManager.recordViolation(reason)`: appends the new violation, keeps
only recent entries (`recentViolations`), persists that list, and, when the
surviving count reaches `maxFailedAttempts`, calls `lockout(reason)` and
returns `true`.  Both `Date.now()` reads inside one call are modelled as the
same instant `now`. -/
def recordViolation (now : Int) (reason : String) (s : LockoutStore) :
    Bool × LockoutStore :=
  let recent := recentViolations now reason s
  let s1 := { s with violations := recent }
  if RATE_LIMIT_CONFIG.maxFailedAttempts ≤ recent.length then
    (true, lockout now reason s1)
  else
    (false, s1)

-- ==========================================================================
-- Event queue and delivery pipeline (security-logger.js)
-- ==========================================================================

structure LoggingConfig where
  enabled : Bool
  batchSize : Nat
  flushInterval : Int
  maxRetries : Nat
deriving DecidableEq, Repr

def LOGGING_CONFIG : LoggingConfig where
  enabled := true
  batchSize := 10
  flushInterval := 30000
  maxRetries := 3

/-- The outcome of the `fetch` in `flushEvents`: `ok` is a 2xx response,
`httpError` is `!response.ok`, `networkError` is the thrown/caught case. -/
inductive SendResult where
  | ok
  | httpError
  | networkError
deriving DecidableEq, Repr

/-- The synchronous head of `flushEvents()`, up to (not including) the `await
fetch`: if the queue is empty, return without a batch; otherwise snapshot the
whole queue as `eventsToSend` (`[...eventQueue]`) and clear the queue
(`eventQueue = []`).  Returns (batch to send, queue value after this point). -/
def flushBegin {Ev : Type} (eventQueue : List Ev) : Option (List Ev) × List Ev :=
  if eventQueue.length = 0 then (none, eventQueue)
  else (some eventQueue, [])

/-- The requeue-on-failure step, duplicated in the source for the `!response.ok`
branch and the catch branch:
`if (eventsToSend.length < 100) eventQueue.unshift(...eventsToSend)`.
`unshift(...xs)` prepends `xs` keeping its order. -/
def requeueFailed {Ev : Type} (eventsToSend eventQueue : List Ev) : List Ev :=
  if eventsToSend.length < 100 then eventsToSend ++ eventQueue else eventQueue

/-- The continuation of `flushEvents()` after the `await fetch` resolves:
`eventQueue` is the queue at resumption time (it may have grown while the send
was in flight); returns the queue after the call completes. -/
def flushComplete {Ev : Type} (eventsToSend : List Ev) (res : SendResult)
    (eventQueue : List Ev) : List Ev :=
  match res with
  | .ok => eventQueue
  | .httpError => requeueFailed eventsToSend eventQueue
  | .networkError => requeueFailed eventsToSend eventQueue

/-- The enqueue step of `logSecurityEventToServer`: push the event, then flush
immediately when `eventQueue.length >= LOGGING_CONFIG.batchSize`.  Returns the
queue after the push and whether the size trigger fired. -/
def enqueueEvent {Ev : Type} (eventQueue : List Ev) (event : Ev) :
    List Ev × Bool :=
  let q := eventQueue ++ [event]
  (q, LOGGING_CONFIG.batchSize ≤ q.length)

-- ==========================================================================
-- checkSecurityPatterns (logging-service.js, the Cloudflare worker)
-- ==========================================================================

/-- The metadata fields `checkSecurityPatterns` reads, each optional as in JS
(`event.metadata?.openCount` etc. evaluate to `undefined` when absent). -/
structure EventMeta where
  openCount : Option Int
  reason : Option String
  timeSinceLastClick : Option Int
  errorMessage : Option String
deriving DecidableEq, Repr

/-- An (enriched) telemetry event as seen by the worker.  Only `eventType` and
`metadata` are read by the classifier; the remaining fields model the rest of
the event object. -/
structure SrvEvent where
  eventType : String
  sessionId : String
  eventNumber : Int
  url : String
  clientIP : String
  metadata : Option EventMeta
deriving DecidableEq, Repr

/-- The result `\x7b isSuspicious, flags \x7d` of `checkSecurityPatterns`. -/
structure SecurityCheck where
  isSuspicious : Bool
  flags : List String
deriving DecidableEq, Repr

/-- JS `x > c` where `x` may be `undefined`: `undefined > c` is `false`. -/
def optGt (x : Option Int) (c : Int) : Bool :=
  match x with
  | none => false
  | some v => decide (c < v)

/-- JS `x < c` where `x` may be `undefined`: `undefined < c` is `false`. -/
def optLt (x : Option Int) (c : Int) : Bool :=
  match x with
  | none => false
  | some v => decide (v < c)

/-- JS `x === c` for an optional string: `undefined === c` is `false`. -/
def optStrEq (x : Option String) (c : String) : Bool :=
  match x with
  | none => false
  | some v => decide (v = c)

/-- JS `x?.includes(sub)` for an optional string: substring containment,
`false` when `x` is `undefined`.  `s.includes(sub)` holds exactly when
`s.splitOn sub` has at least two pieces (for the nonempty literal used). -/
def optIncludes (x : Option String) (sub : String) : Bool :=
  match x with
  | none => false
  | some v => decide (2 ≤ (v.splitOn sub).length)

/-- `checkSecurityPatterns(event)`: the five pattern checks, evaluated in
source order, each appending its flag; patterns 1-4 also set `isSuspicious`,
pattern 5 (the CORS check) only appends its flag. -/
def checkSecurityPatterns (event : SrvEvent) : SecurityCheck :=
  let flags : List String := []
  let isSuspicious := false
  -- Pattern 1: Too many overlay opens
  let p1 := event.eventType = "overlay_opened"
            ∧ optGt (event.metadata.bind (fun m => m.openCount)) 50 = true
  let (flags, isSuspicious) :=
    if p1 then (flags ++ ["excessive_overlay_opens"], true) else (flags, isSuspicious)
  -- Pattern 2: Blocked domain access attempts
  let p2 := event.eventType = "security_block"
            ∧ optStrEq (event.metadata.bind (fun m => m.reason)) "Domini no autoritzat" = true
  let (flags, isSuspicious) :=
    if p2 then (flags ++ ["blocked_domain_access"], true) else (flags, isSuspicious)
  -- Pattern 3: Rapid-fire document clicks
  let p3 := event.eventType = "document_clicked"
            ∧ optLt (event.metadata.bind (fun m => m.timeSinceLastClick)) 100 = true
  let (flags, isSuspicious) :=
    if p3 then (flags ++ ["rapid_clicking"], true) else (flags, isSuspicious)
  -- Pattern 4: Sheet edit access, always flagged
  let p4 := event.eventType = "sheet_edit_accessed"
  let (flags, isSuspicious) :=
    if p4 then (flags ++ ["sheet_edit_attempt"], true) else (flags, isSuspicious)
  -- Pattern 5: CORS error keyword, flagged but not marked suspicious
  let p5 := event.eventType = "error"
            ∧ optIncludes (event.metadata.bind (fun m => m.errorMessage)) "CORS" = true
  let flags :=
    if p5 then flags ++ ["cors_error"] else flags
  { isSuspicious := isSuspicious, flags := flags }

-- ==========================================================================
-- Helper lemmas about isAllowed / runCalls
-- ==========================================================================

theorem isAllowed_denied_eq (rl : RateLimiter) (now : Int) (attempts : List Int)
    (h : rl.maxAttempts ≤ (pruneAttempts rl now attempts).length) :
    isAllowed rl now attempts =
      (RLOutcome.denied
        (jsCeil1000 (rl.windowMs - (now - listMin (pruneAttempts rl now attempts)))),
       attempts) := by
  simp [isAllowed, h]

theorem isAllowed_allowed_eq (rl : RateLimiter) (now : Int) (attempts : List Int)
    (h : (pruneAttempts rl now attempts).length < rl.maxAttempts) :
    isAllowed rl now attempts =
      (RLOutcome.allowed (rl.maxAttempts - ((pruneAttempts rl now attempts).length + 1)),
       pruneAttempts rl now attempts ++ [now]) := by
  simp [isAllowed, Nat.not_le.mpr h]

theorem runCalls_cons (rl : RateLimiter) (t : Int) (ts : List Int)
    (attempts : List Int) :
    runCalls rl (t :: ts) attempts =
      ((isAllowed rl t attempts).1 :: (runCalls rl ts (isAllowed rl t attempts).2).1,
       (runCalls rl ts (isAllowed rl t attempts).2).2) := rfl

theorem runCalls_length (rl : RateLimiter) (times : List Int) (attempts : List Int) :
    (runCalls rl times attempts).1.length = times.length := by
  induction times generalizing attempts with
  | nil => simp [runCalls]
  | cons t ts ih => simp [runCalls_cons, ih]

theorem countP_isAllowedB_cons_denied (w : Int) (l : List RLOutcome) :
    (RLOutcome.denied w :: l).countP RLOutcome.isAllowedB
      = l.countP RLOutcome.isAllowedB := by
  simp [List.countP_cons, RLOutcome.isAllowedB]

theorem countP_isAllowedB_cons_allowed (n : Nat) (l : List RLOutcome) :
    (RLOutcome.allowed n :: l).countP RLOutcome.isAllowedB
      = l.countP RLOutcome.isAllowedB + 1 := by
  simp [List.countP_cons, RLOutcome.isAllowedB]

theorem countP_not_isAllowedB (l : List RLOutcome) :
    l.countP (fun r => !r.isAllowedB) = l.length - l.countP RLOutcome.isAllowedB := by
  induction l with
  | nil => simp
  | cons r rs ih =>
    have hle : rs.countP RLOutcome.isAllowedB ≤ rs.length := List.countP_le_length _
    cases hr : r.isAllowedB
    · simp [List.countP_cons, hr, ih]
      omega
    · simp [List.countP_cons, hr, ih]

/-- Invariant for a run of `isAllowed()` calls whose instants, together with
every stored timestamp, all lie in one half-open window `[lo, lo + windowMs)`:
no pruning ever removes anything, so the stored list only grows by the allowed
calls, and the number of allowed outcomes is `min #calls (maxAttempts - #stored)`;
every denial reports a strictly positive `timeToWait`. -/
theorem runCalls_window_inv (rl : RateLimiter) (lo : Int)
    (hm : 0 < rl.maxAttempts) (times : List Int) :
    ∀ (state : List Int),
    (∀ t ∈ times, lo ≤ t ∧ t < lo + rl.windowMs) →
    (∀ s ∈ state, lo ≤ s ∧ s < lo + rl.windowMs) →
    state.length ≤ rl.maxAttempts →
    ((runCalls rl times state).1.countP RLOutcome.isAllowedB
        = min times.length (rl.maxAttempts - state.length))
    ∧ (∀ w, RLOutcome.denied w ∈ (runCalls rl times state).1 → 0 < w) := by
  induction times with
  | nil =>
    intro state _ _ _
    simp [runCalls]
  | cons t ts ih =>
    intro state htimes hstate hlen
    have ht : lo ≤ t ∧ t < lo + rl.windowMs := htimes t (List.mem_cons_self t ts)
    have hts : ∀ u ∈ ts, lo ≤ u ∧ u < lo + rl.windowMs :=
      fun u hu => htimes u (List.mem_cons_of_mem t hu)
    have hpr : pruneAttempts rl t state = state := by
      unfold pruneAttempts
      apply List.filter_eq_self.mpr
      intro s hs
      have hsb := hstate s hs
      simp only [decide_eq_true_eq]
      omega
    rw [runCalls_cons]
    by_cases hge : rl.maxAttempts ≤ state.length
    · -- the call is denied and the stored list is unchanged
      have hlen_eq : state.length = rl.maxAttempts := le_antisymm hlen hge
      have hne : state ≠ [] := by
        intro hnil
        rw [hnil] at hlen_eq
        simp at hlen_eq
        omega
      have holdb := hstate _ (listMin_mem state hne)
      have hraw : 1 ≤ rl.windowMs - (t - listMin state) := by omega
      have hda : isAllowed rl t state
          = (RLOutcome.denied (jsCeil1000 (rl.windowMs - (t - listMin state))), state) := by
        have h1 : rl.maxAttempts ≤ (pruneAttempts rl t state).length := by
          rw [hpr]; exact hge
        rw [isAllowed_denied_eq rl t state h1, hpr]
      rw [hda]
      obtain ⟨ihc, ihd⟩ := ih state hts hstate hlen
      refine ⟨?_, ?_⟩
      · rw [countP_isAllowedB_cons_denied, ihc]
        simp only [List.length_cons]
        omega
      · intro w hw
        rcases List.mem_cons.mp hw with hw | hw
        · have hww : w = jsCeil1000 (rl.windowMs - (t - listMin state)) := by
            injection hw
          rw [hww]
          exact jsCeil1000_pos _ hraw
        · exact ihd w hw
    · -- the call is allowed and t is appended to the stored list
      push_neg at hge
      have haa : isAllowed rl t state
          = (RLOutcome.allowed (rl.maxAttempts - (state.length + 1)), state ++ [t]) := by
        have h1 : (pruneAttempts rl t state).length < rl.maxAttempts := by
          rw [hpr]; exact hge
        rw [isAllowed_allowed_eq rl t state h1, hpr]
      rw [haa]
      have hstate2 : ∀ s ∈ state ++ [t], lo ≤ s ∧ s < lo + rl.windowMs := by
        intro s hs
        rcases List.mem_append.mp hs with hs | hs
        · exact hstate s hs
        · rcases List.mem_singleton.mp hs with rfl
          exact ht
      have haplen : (state ++ [t]).length = state.length + 1 := by simp
      have hlen2 : (state ++ [t]).length ≤ rl.maxAttempts := by omega
      obtain ⟨ihc, ihd⟩ := ih (state ++ [t]) hts hstate2 hlen2
      rw [haplen] at ihc
      refine ⟨?_, ?_⟩
      · rw [countP_isAllowedB_cons_allowed, ihc]
        simp only [List.length_cons]
        omega
      · intro w hw
        rcases List.mem_cons.mp hw with hw | hw
        · exact absurd hw (by simp)
        · exact ihd w hw

/-- Claim C1.  For every sequence of `isAllowed()` calls for one action whose
instants all lie within a span shorter than `windowMs` (formalised: inside one
half-open window `[lo, lo + windowMs)`), starting from empty stored state,
exactly `min N maxAttempts` of the calls return `allowed: true`, the remaining
`N - min N maxAttempts` return `allowed: false`, and every denied call reports
a `timeToWait` strictly greater than `0`. -/
theorem rateLimiter_window_counts (rl : RateLimiter) (times : List Int) (lo : Int)
    (hm : 0 < rl.maxAttempts)
    (hwin : ∀ t ∈ times, lo ≤ t ∧ t < lo + rl.windowMs) :
    ((runCalls rl times []).1.countP RLOutcome.isAllowedB
        = min times.length rl.maxAttempts)
    ∧ ((runCalls rl times []).1.countP (fun r => !r.isAllowedB)
        = times.length - min times.length rl.maxAttempts)
    ∧ (∀ w, RLOutcome.denied w ∈ (runCalls rl times []).1 → 0 < w) := by
  obtain ⟨hc, hd⟩ :=
    runCalls_window_inv rl lo hm times [] hwin (by simp) (by simp)
  simp only [List.length_nil, Nat.sub_zero] at hc
  have hlen : (runCalls rl times []).1.length = times.length :=
    runCalls_length rl times []
  refine ⟨hc, ?_, hd⟩
  rw [countP_not_isAllowedB, hlen, hc]

/-- Witness for C1 at a concrete run: limiter with `maxAttempts = 3`,
`windowMs = 60000`, five calls at instants 0, 10, 20, 30, 40. -/
theorem rateLimiter_window_counts_witness :
    (((runCalls { action := "overlay_open", maxAttempts := 3, windowMs := 60000 }
          [0, 10, 20, 30, 40] []).1.countP RLOutcome.isAllowedB)
        = min ([0, 10, 20, 30, 40] : List Int).length
            ({ action := "overlay_open", maxAttempts := 3, windowMs := 60000 } : RateLimiter).maxAttempts)
    ∧ (((runCalls { action := "overlay_open", maxAttempts := 3, windowMs := 60000 }
          [0, 10, 20, 30, 40] []).1.countP (fun r => !r.isAllowedB))
        = ([0, 10, 20, 30, 40] : List Int).length
            - min ([0, 10, 20, 30, 40] : List Int).length
                ({ action := "overlay_open", maxAttempts := 3, windowMs := 60000 } : RateLimiter).maxAttempts)
    ∧ (∀ w, RLOutcome.denied w ∈
          (runCalls { action := "overlay_open", maxAttempts := 3, windowMs := 60000 }
            [0, 10, 20, 30, 40] []).1 → 0 < w) :=
  rateLimiter_window_counts
    { action := "overlay_open", maxAttempts := 3, windowMs := 60000 }
    [0, 10, 20, 30, 40] 0 (by decide) (by decide)

/-- Claim C6 (counterexample).  A concrete denied call: the limiter with
`maxAttempts = 2`, `windowMs = 60000`, stored list `[0, 50000, 50001]` at
`now = 70000` is denied, yet the stored list after the call is the original
list, unchanged — not the pruned list `[50000, 50001]` the claim says every
call persists (the denied branch returns before `saveAttempts`). -/
theorem denied_call_does_not_persist_cex :
    ((isAllowed { action := "overlay_open", maxAttempts := 2, windowMs := 60000 }
        70000 [0, 50000, 50001]).1 = RLOutcome.denied 40)
    ∧ ((isAllowed { action := "overlay_open", maxAttempts := 2, windowMs := 60000 }
        70000 [0, 50000, 50001]).2 = [0, 50000, 50001])
    ∧ (pruneAttempts { action := "overlay_open", maxAttempts := 2, windowMs := 60000 }
        70000 [0, 50000, 50001] = [50000, 50001])
    ∧ (([0, 50000, 50001] : List Int) ≠ [50000, 50001]) := by
  refine ⟨?_, ?_, ?_, ?_⟩ <;> decide

/-- Claim C6 (amended).  Only an allowed call mutates the persisted attempt
state (it stores the pruned list with `now` appended); a denied call leaves
the stored list exactly as it was, because `isAllowed` returns before
`saveAttempts` on the denied path. -/
theorem isAllowed_storage_effect (rl : RateLimiter) (now : Int)
    (attempts : List Int) :
    (isAllowed rl now attempts).2 =
      match (isAllowed rl now attempts).1 with
      | .denied _ => attempts
      | .allowed _ => pruneAttempts rl now attempts ++ [now] := by
  by_cases h : rl.maxAttempts ≤ (pruneAttempts rl now attempts).length
  · rw [isAllowed_denied_eq rl now attempts h]
  · rw [isAllowed_allowed_eq rl now attempts (Nat.not_le.mp h)]

/-- Claim C8.  For every denied call on a stored list the limiter itself could
have produced (the store never persists more than `maxAttempts` entries), the
reported wait is `ceil((windowMs - (now - oldest surviving timestamp)) / 1000)`
seconds, and retrying exactly `timeToWait` seconds later (with no intervening
calls; a denied call leaves storage unchanged) is allowed: by then the oldest
surviving attempt has left the sliding window. -/
theorem denied_retry_after_admits (rl : RateLimiter) (now : Int)
    (attempts : List Int) (w : Int)
    (hm : 0 < rl.maxAttempts)
    (hinv : attempts.length ≤ rl.maxAttempts)
    (hden : (isAllowed rl now attempts).1 = RLOutcome.denied w) :
    w = jsCeil1000 (rl.windowMs - (now - listMin (pruneAttempts rl now attempts)))
    ∧ (isAllowed rl (now + 1000 * w) attempts).1.isAllowedB = true := by
  by_cases hge : rl.maxAttempts ≤ (pruneAttempts rl now attempts).length
  · have hd2 : RLOutcome.denied
        (jsCeil1000 (rl.windowMs - (now - listMin (pruneAttempts rl now attempts))))
        = RLOutcome.denied w := by
      have heq := isAllowed_denied_eq rl now attempts hge
      rw [heq] at hden
      exact hden
    have hw : w = jsCeil1000
        (rl.windowMs - (now - listMin (pruneAttempts rl now attempts))) := by
      injection hd2 with h
      exact h.symm
    refine ⟨hw, ?_⟩
    have hvne : pruneAttempts rl now attempts ≠ [] := by
      intro h0
      rw [h0] at hge
      simp at hge
      omega
    have hmem : listMin (pruneAttempts rl now attempts) ∈ pruneAttempts rl now attempts :=
      listMin_mem _ hvne
    have hmemf : listMin (pruneAttempts rl now attempts)
        ∈ attempts.filter (fun timestamp => decide (now - timestamp < rl.windowMs)) := hmem
    obtain ⟨hmemA, hmemW⟩ := List.mem_filter.mp hmemf
    rw [decide_eq_true_eq] at hmemW
    have hraw : 1 ≤ rl.windowMs - (now - listMin (pruneAttempts rl now attempts)) := by
      omega
    have hwpos : 0 < w := by
      rw [hw]
      exact jsCeil1000_pos _ hraw
    have hmul : rl.windowMs - (now - listMin (pruneAttempts rl now attempts))
        ≤ 1000 * w := by
      rw [hw]
      exact jsCeil1000_mul_ge _
    have himp : ∀ t ∈ attempts,
        (decide (now + 1000 * w - t < rl.windowMs) : Bool)
          = (decide (now + 1000 * w - t < rl.windowMs)
              && decide (now - t < rl.windowMs)) := by
      intro t _
      by_cases h2 : now + 1000 * w - t < rl.windowMs
      · have h1 : now - t < rl.windowMs := by omega
        simp [h1, h2]
      · simp [h2]
    have hsplit : pruneAttempts rl (now + 1000 * w) attempts
        = List.filter (fun t => decide (now + 1000 * w - t < rl.windowMs))
            (pruneAttempts rl now attempts) := by
      simp only [pruneAttempts]
      rw [List.filter_filter]
      exact List.filter_congr himp
    have hofail : ¬ ((decide (now + 1000 * w
        - listMin (pruneAttempts rl now attempts) < rl.windowMs) : Bool) = true) := by
      rw [decide_eq_true_eq]
      omega
    have hlt : (pruneAttempts rl (now + 1000 * w) attempts).length
        < (pruneAttempts rl now attempts).length := by
      rw [hsplit]
      exact List.length_filter_lt_length_iff_exists.mpr ⟨_, hmem, hofail⟩
    have hlen2 : (pruneAttempts rl (now + 1000 * w) attempts).length
        < rl.maxAttempts := by
      have h3 : (pruneAttempts rl now attempts).length ≤ attempts.length :=
        List.length_filter_le _ _
      omega
    rw [isAllowed_allowed_eq rl (now + 1000 * w) attempts hlen2]
    simp [RLOutcome.isAllowedB]
  · rw [isAllowed_allowed_eq rl now attempts (Nat.not_le.mp hge)] at hden
    exact absurd hden (by simp)

/-- Witness for C8: the limiter with `maxAttempts = 2`, `windowMs = 60000`,
stored list `[0, 1000]`, denied at `now = 2000` with `timeToWait = 58`; the
retry at `2000 + 1000 * 58 = 60000` is allowed. -/
theorem denied_retry_after_admits_witness :
    ((58 : Int) = jsCeil1000
        (({ action := "overlay_open", maxAttempts := 2, windowMs := 60000 } : RateLimiter).windowMs
          - (2000 - listMin (pruneAttempts
              { action := "overlay_open", maxAttempts := 2, windowMs := 60000 }
              2000 [0, 1000]))))
    ∧ ((isAllowed { action := "overlay_open", maxAttempts := 2, windowMs := 60000 }
          (2000 + 1000 * 58) [0, 1000]).1.isAllowedB = true) :=
  denied_retry_after_admits
    { action := "overlay_open", maxAttempts := 2, windowMs := 60000 }
    2000 [0, 1000] 58 (by decide) (by decide) (by decide)

-- ==========================================================================
-- Lockout manager theorems
-- ==========================================================================

/-- Claim C2.  When `recordViolation(reason)` is called such that, after
appending the new violation and pruning entries older than 5 minutes, the
surviving count reaches `maxFailedAttempts = 5`, that call returns `true` and
installs a lockout with `until = now + lockoutDuration`; every subsequent
`isLockedOut()` call before `until` reports `locked: true` with
`timeRemaining = ceil((until - now2) / 1000)` seconds, leaving state
unchanged. -/
theorem lockout_threshold_triggers (s : LockoutStore) (now now2 : Int)
    (reason : String)
    (hcount : RATE_LIMIT_CONFIG.maxFailedAttempts ≤
        (recentViolations now reason s).length)
    (hnow2 : now2 < now + RATE_LIMIT_CONFIG.lockoutDuration) :
    ((recordViolation now reason s).1 = true)
    ∧ ((recordViolation now reason s).2.lockout
        = some { untilMs := now + RATE_LIMIT_CONFIG.lockoutDuration,
                 reason := reason, timestamp := now })
    ∧ ((isLockedOut now2 (recordViolation now reason s).2).1
        = LockoutCheck.lockedRecord
            (jsCeil1000 (now + RATE_LIMIT_CONFIG.lockoutDuration - now2)) reason)
    ∧ ((isLockedOut now2 (recordViolation now reason s).2).2
        = (recordViolation now reason s).2) := by
  have hrv : recordViolation now reason s
      = (true, lockout now reason
          { s with violations := recentViolations now reason s }) := by
    unfold recordViolation
    rw [if_pos hcount]
  rw [hrv]
  refine ⟨rfl, rfl, ?_, ?_⟩
  · simp [isLockedOut, lockout, hnow2]
  · simp [isLockedOut, lockout, hnow2]

/-- Witness for C2: four stored violations at instants 0..3, the fifth
recorded at `now = 4`, checked at `now2 = 100`. -/
theorem lockout_threshold_triggers_witness :
    ((recordViolation 4 "r"
        { lockout := none,
          violations :=
            [{ timestamp := 0, reason := "r" }, { timestamp := 1, reason := "r" },
             { timestamp := 2, reason := "r" }, { timestamp := 3, reason := "r" }] }).1
      = true)
    ∧ ((recordViolation 4 "r"
        { lockout := none,
          violations :=
            [{ timestamp := 0, reason := "r" }, { timestamp := 1, reason := "r" },
             { timestamp := 2, reason := "r" }, { timestamp := 3, reason := "r" }] }).2.lockout
        = some { untilMs := 4 + RATE_LIMIT_CONFIG.lockoutDuration,
                 reason := "r", timestamp := 4 })
    ∧ ((isLockedOut 100 (recordViolation 4 "r"
        { lockout := none,
          violations :=
            [{ timestamp := 0, reason := "r" }, { timestamp := 1, reason := "r" },
             { timestamp := 2, reason := "r" }, { timestamp := 3, reason := "r" }] }).2).1
        = LockoutCheck.lockedRecord
            (jsCeil1000 (4 + RATE_LIMIT_CONFIG.lockoutDuration - 100)) "r")
    ∧ ((isLockedOut 100 (recordViolation 4 "r"
        { lockout := none,
          violations :=
            [{ timestamp := 0, reason := "r" }, { timestamp := 1, reason := "r" },
             { timestamp := 2, reason := "r" }, { timestamp := 3, reason := "r" }] }).2).2
        = (recordViolation 4 "r"
        { lockout := none,
          violations :=
            [{ timestamp := 0, reason := "r" }, { timestamp := 1, reason := "r" },
             { timestamp := 2, reason := "r" }, { timestamp := 3, reason := "r" }] }).2) :=
  lockout_threshold_triggers
    { lockout := none,
      violations :=
        [{ timestamp := 0, reason := "r" }, { timestamp := 1, reason := "r" },
         { timestamp := 2, reason := "r" }, { timestamp := 3, reason := "r" }] }
    4 100 "r" (by decide) (by decide)

/-- Claim C3 (counterexample).  With an active lockout (`until = 300000`,
`now = 1000 < until`) and the five violations that installed it still stored,
one more `recordViolation` overwrites the active lockout with a fresh record
whose `until = 1000 + 300000 = 301000` — extending it, contrary to the claim
that an active lockout is never extended, overwritten, or stacked
(`recordViolation` never consults the lockout state before calling
`lockout()`). -/
theorem recordViolation_extends_active_lockout_cex :
    ((1000 : Int) < 300000)
    ∧ ((recordViolation 1000 "r2"
          { lockout := some { untilMs := 300000, reason := "r", timestamp := 0 },
            violations :=
              [{ timestamp := 0, reason := "r" }, { timestamp := 1, reason := "r" },
               { timestamp := 2, reason := "r" }, { timestamp := 3, reason := "r" },
               { timestamp := 4, reason := "r" }] }).2.lockout
        = some { untilMs := 301000, reason := "r2", timestamp := 1000 })
    ∧ ((some { untilMs := 301000, reason := "r2", timestamp := (1000 : Int) }
          : Option LockoutRecord)
        ≠ some { untilMs := 300000, reason := "r", timestamp := 0 }) := by
  refine ⟨?_, ?_, ?_⟩ <;> decide

/-- Claim C3 (amended).  `recordViolation` ignores any active lockout: when the
pruned violation count reaches the threshold again it calls `lockout(reason)`
and overwrites the stored record with a fresh one
(`until = now + lockoutDuration`, extending an active lockout); only when the
count stays below the threshold does it leave the stored lockout unchanged. -/
theorem recordViolation_lockout_update (s : LockoutStore) (now : Int)
    (reason : String) :
    (recordViolation now reason s).2.lockout =
      if RATE_LIMIT_CONFIG.maxFailedAttempts ≤
          (recentViolations now reason s).length
      then some { untilMs := now + RATE_LIMIT_CONFIG.lockoutDuration,
                  reason := reason, timestamp := now }
      else s.lockout := by
  by_cases h : RATE_LIMIT_CONFIG.maxFailedAttempts ≤
      (recentViolations now reason s).length
  · unfold recordViolation
    rw [if_pos h, if_pos h]
    rfl
  · unfold recordViolation
    rw [if_neg h, if_neg h]

/-- Claim C7.  For every stored lockout whose `until` has passed, the next
`isLockedOut()` call clears both the lockout record and the violation history
and reports `{ locked: false }`; every further call (with no new lockout)
reports unlocked — as the bare boolean `false`, whose `locked` field is falsy —
and leaves the already-empty state unchanged. -/
theorem expired_lockout_lazy_clear (s : LockoutStore) (lk : LockoutRecord)
    (now now2 : Int)
    (hlk : s.lockout = some lk) (hexp : lk.untilMs ≤ now) :
    ((isLockedOut now s).1 = LockoutCheck.unlockedRecord)
    ∧ ((isLockedOut now s).2 = { lockout := none, violations := [] })
    ∧ (isLockedOut now2 (isLockedOut now s).2
        = (LockoutCheck.boolFalse, (isLockedOut now s).2))
    ∧ (jsLockedField (isLockedOut now2 (isLockedOut now s).2).1 = false) := by
  have h1 : isLockedOut now s
      = (LockoutCheck.unlockedRecord, { lockout := none, violations := [] }) := by
    simp [isLockedOut, hlk, clearLockout, Int.not_lt.mpr hexp]
  rw [h1]
  exact ⟨rfl, rfl, rfl, rfl⟩

/-- Witness for C7: lockout with `until = 100` checked at `now = 100` and
again at `now2 = 200`. -/
theorem expired_lockout_lazy_clear_witness :
    ((isLockedOut 100
        { lockout := some { untilMs := 100, reason := "r", timestamp := 0 },
          violations := [{ timestamp := 0, reason := "r" }] }).1
      = LockoutCheck.unlockedRecord)
    ∧ ((isLockedOut 100
        { lockout := some { untilMs := 100, reason := "r", timestamp := 0 },
          violations := [{ timestamp := 0, reason := "r" }] }).2
        = { lockout := none, violations := [] })
    ∧ (isLockedOut 200 (isLockedOut 100
        { lockout := some { untilMs := 100, reason := "r", timestamp := 0 },
          violations := [{ timestamp := 0, reason := "r" }] }).2
        = (LockoutCheck.boolFalse, (isLockedOut 100
            { lockout := some { untilMs := 100, reason := "r", timestamp := 0 },
              violations := [{ timestamp := 0, reason := "r" }] }).2))
    ∧ (jsLockedField (isLockedOut 200 (isLockedOut 100
        { lockout := some { untilMs := 100, reason := "r", timestamp := 0 },
          violations := [{ timestamp := 0, reason := "r" }] }).2).1 = false) :=
  expired_lockout_lazy_clear
    { lockout := some { untilMs := 100, reason := "r", timestamp := 0 },
      violations := [{ timestamp := 0, reason := "r" }] }
    { untilMs := 100, reason := "r", timestamp := 0 }
    100 200 rfl (by decide)

/-- Claim C10 (counterexample).  The two unlocked results have different JS
truthiness: with nothing stored, `isLockedOut()` returns the bare boolean
`false` (falsy); right after clearing an expired lockout it returns the object
`\x7b locked: false \x7d` (truthy).  A caller branching on the truthiness of
the result itself therefore behaves differently in the two cases, refuting the
final clause of the claim. -/
theorem isLockedOut_truthiness_cex :
    ((isLockedOut 5 { lockout := none, violations := [] }).1
      = LockoutCheck.boolFalse)
    ∧ ((isLockedOut 10
        { lockout := some { untilMs := 5, reason := "r", timestamp := 0 },
          violations := [] }).1 = LockoutCheck.unlockedRecord)
    ∧ (jsTruthy LockoutCheck.boolFalse = false)
    ∧ (jsTruthy LockoutCheck.unlockedRecord = true)
    ∧ (jsTruthy LockoutCheck.boolFalse ≠ jsTruthy LockoutCheck.unlockedRecord) := by
  refine ⟨?_, ?_, ?_, ?_, ?_⟩ <;> decide

/-- Claim C10 (amended).  When no lockout record is stored (absent or
unparseable), `isLockedOut()` returns the bare boolean `false` rather than a
`\x7b locked: false \x7d` record, so the unlocked result has two different
shapes.  Callers reading the `locked` field of the result see a falsy value in both
cases; the truthiness of the result itself differs between the two shapes. -/
theorem isLockedOut_unlocked_shapes (s : LockoutStore) (now : Int)
    (hs : s.lockout = none) :
    ((isLockedOut now s).1 = LockoutCheck.boolFalse)
    ∧ (jsLockedField (isLockedOut now s).1 = false)
    ∧ (jsLockedField LockoutCheck.unlockedRecord = false)
    ∧ (jsTruthy (isLockedOut now s).1 ≠ jsTruthy LockoutCheck.unlockedRecord) := by
  have h1 : isLockedOut now s = (LockoutCheck.boolFalse, s) := by
    simp [isLockedOut, hs]
  rw [h1]
  exact ⟨rfl, rfl, rfl, by simp [jsTruthy]⟩

/-- Witness for the amended C10 at the empty store. -/
theorem isLockedOut_unlocked_shapes_witness :
    ((isLockedOut 0 { lockout := none, violations := [] }).1
      = LockoutCheck.boolFalse)
    ∧ (jsLockedField (isLockedOut 0 { lockout := none, violations := [] }).1
        = false)
    ∧ (jsLockedField LockoutCheck.unlockedRecord = false)
    ∧ (jsTruthy (isLockedOut 0 { lockout := none, violations := [] }).1
        ≠ jsTruthy LockoutCheck.unlockedRecord) :=
  isLockedOut_unlocked_shapes { lockout := none, violations := [] } 0 rfl

-- ==========================================================================
-- Delivery pipeline theorems
-- ==========================================================================

/-- Claim C4.  A flush from a nonempty queue (in particular the size-triggered
flush at `batchSize` events) snapshots exactly the events present when it
starts, in insertion order, as the one batch to send, and clears the queue
before the asynchronous network call; an event enqueued while the send is in
flight is not in the snapshot batch (if it was not already queued) and is
still in the queue after the send completes, whatever its outcome. -/
theorem flush_snapshot_batch (Ev : Type) (q extra : List Ev) (res : SendResult)
    (hq : q ≠ []) :
    ((flushBegin q).1 = some q)
    ∧ ((flushBegin q).2 = [])
    ∧ (∀ ev ∈ extra, ev ∉ q → ∀ b, (flushBegin q).1 = some b → ev ∉ b)
    ∧ (∀ ev ∈ extra, ev ∈ flushComplete q res ((flushBegin q).2 ++ extra)) := by
  have hne : ¬ (q.length = 0) := by
    simpa [List.length_eq_zero] using hq
  have h1 : flushBegin q = (some q, []) := by
    simp [flushBegin, hne]
  rw [h1]
  refine ⟨rfl, rfl, ?_, ?_⟩
  · intro ev _ hev b hb
    injection hb with hqb
    rw [← hqb]
    exact hev
  · intro ev hev
    have h2 : ev ∈ q ++ ([] ++ extra) := by
      simp [hev]
    cases res
    · simpa using hev
    · unfold flushComplete requeueFailed
      by_cases hlen : q.length < 100
      · rw [if_pos hlen]
        exact h2
      · rw [if_neg hlen]
        simpa using hev
    · unfold flushComplete requeueFailed
      by_cases hlen : q.length < 100
      · rw [if_pos hlen]
        exact h2
      · rw [if_neg hlen]
        simpa using hev

/-- Witness for C4: queue `[1, 2]`, in-flight arrivals `[3]`, successful send. -/
theorem flush_snapshot_batch_witness :
    ((flushBegin [1, 2]).1 = some [1, 2])
    ∧ ((flushBegin [1, 2]).2 = ([] : List Nat))
    ∧ (∀ ev ∈ [3], ev ∉ [1, 2] → ∀ b, (flushBegin [1, 2]).1 = some b → ev ∉ b)
    ∧ (∀ ev ∈ [3], ev ∈ flushComplete [1, 2] SendResult.ok
        ((flushBegin [1, 2]).2 ++ [3])) :=
  flush_snapshot_batch Nat [1, 2] [3] SendResult.ok (by decide)

/-- Claim C5.  For every failed delivery (non-2xx response or transport
exception) of a batch of `K` events: if `K < 100` the whole batch is
reinserted at the front of the queue, ahead of everything enqueued after the
flush started and in its original internal order; if `K ≥ 100` the batch is
dropped and none of its events return to the queue. -/
theorem failed_batch_requeue_front (Ev : Type) (eventsToSend laterQueue : List Ev)
    (res : SendResult) (hres : res ≠ SendResult.ok) :
    flushComplete eventsToSend res laterQueue =
      if eventsToSend.length < 100 then eventsToSend ++ laterQueue
      else laterQueue := by
  cases res
  · exact absurd rfl hres
  · rfl
  · rfl

/-- Witness for C5: failed batch `[1, 2]`, later arrivals `[3]`, HTTP error. -/
theorem failed_batch_requeue_front_witness :
    flushComplete [1, 2] SendResult.httpError [3] =
      if ([1, 2] : List Nat).length < 100 then [1, 2] ++ [3] else [3] :=
  failed_batch_requeue_front Nat [1, 2] [3] SendResult.httpError (by decide)

-- ==========================================================================
-- Event classifier theorem
-- ==========================================================================

/-- Claim C9.  `checkSecurityPatterns` is a pure, deterministic classifier: its
result — the `isSuspicious` value and the flag sequence, in order — is a
function of the `eventType` and `metadata` of the event alone, so two events
agreeing on those fields (and in particular two evaluations of the same
input) yield identical results.  The embedding is a total function building a
fresh result; it mutates neither the input event nor any other state. -/
theorem checkSecurityPatterns_deterministic (e1 e2 : SrvEvent)
    (hty : e1.eventType = e2.eventType) (hmd : e1.metadata = e2.metadata) :
    checkSecurityPatterns e1 = checkSecurityPatterns e2 := by
  unfold checkSecurityPatterns
  rw [hty, hmd]

/-- Witness for C9: two events with the same type and metadata but different
session, url, counter and IP classify identically. -/
theorem checkSecurityPatterns_deterministic_witness :
    checkSecurityPatterns
      { eventType := "document_clicked", sessionId := "sess_a", eventNumber := 1,
        url := "https://a.example", clientIP := "1.1.1.1",
        metadata := some { openCount := none, reason := none,
                           timeSinceLastClick := some 50, errorMessage := none } }
    = checkSecurityPatterns
      { eventType := "document_clicked", sessionId := "sess_b", eventNumber := 9,
        url := "https://b.example", clientIP := "2.2.2.2",
        metadata := some { openCount := none, reason := none,
                           timeSinceLastClick := some 50, errorMessage := none } } :=
  checkSecurityPatterns_deterministic _ _ rfl rfl

end ClickeduSecurity
